import Mathlib

/-!
Shallow embedding of the `@j-arens/result` TypeScript library.

The source (`src/Result.ts`, `src/index.ts`) defines a class `Result<T, E>`
with two subclasses `Ok<T>` and `Err<E>`, a companion error class
`ResultError`, and two free factory functions `ok` / `err`.

Modelling conventions:
* A JavaScript value of static type `T` is modelled as `Option T`, where
  `Option.none` stands for `undefined` (the variant constructors store
  `undefined` in the payload slot they do not use).
* Reference identity is modelled by a natural-number `id` carried by every
  object; each `new` allocation is given a caller-supplied fresh identifier.
  Structural equality of the Lean records therefore coincides with
  JavaScript reference identity of the modelled objects.
* A method that can `throw` returns `Except ResultError _`.
-/

set_option autoImplicit false

/-- The runtime class of a `Result` object: the base class `Result` itself,
or one of its two subclasses `Ok` and `Err`.  The source decides the variant
with `this instanceof Ok` / `this instanceof Err`, which in this embedding
is an inspection of this tag. -/
inductive RClass where
  | base
  | ok
  | err
deriving DecidableEq, Repr

/-- The `ResultError` class from `src/Result.ts`, a subclass of `Error`.
The class body pins the `name` field to the string `"ResultError"`; the
`message` field is whatever string the constructor received. -/
structure ResultError where
  name : String
  message : String
deriving DecidableEq, Repr

/-- `new ResultError(message)`: the constructor stores `message` and the
class body initialises `name` to `"ResultError"`. -/
def ResultError.new (message : String) : ResultError :=
  { name := "ResultError", message := message }

/-- The static factory `ResultError.illegalInstantiation()`. -/
def ResultError.illegalInstantiation : ResultError :=
  ResultError.new "Result must be an instance of Ok or Err"

/-- The static factory `ResultError.illegalCall(method, type)`. -/
def ResultError.illegalCall (method type : String) : ResultError :=
  ResultError.new ("cannot call " ++ method ++ " on a Result of type " ++ type)

/-- Modelled from the spec: the external `Option` collaborator from
`@j-arens/option`, which is not part of this repository.  The spec treats it
as an opaque single-value-or-empty container with construction functions
`some` and `none`. -/
inductive ExtOption (A : Type) where
  | some (value : A)
  | none
deriving DecidableEq, Repr

/-- Modelled from the spec: whether the external optional is populated. -/
def ExtOption.isSome {A : Type} : ExtOption A → Bool
  | ExtOption.some _ => true
  | ExtOption.none => false

/-- Modelled from the spec: unwrapping the external optional, yielding its
payload when populated and nothing when empty. -/
def ExtOption.unwrap {A : Type} : ExtOption A → Option A
  | ExtOption.some a => Option.some a
  | ExtOption.none => Option.none

/-- A runtime `Result<T, E>` object from `src/Result.ts`.  `cls` is the
object's runtime class; `_success` and `_error` are the two private fields,
each holding a JavaScript value of the payload type (`Option.none` stands
for `undefined`); `id` is the object's reference identity. -/
structure Result (T E : Type) where
  cls : RClass
  _success : Option T
  _error : Option E
  id : Nat
deriving DecidableEq, Repr

namespace Result

/-- `isOk()`: `this instanceof Ok`. -/
def isOk {T E : Type} (self : Result T E) : Bool :=
  self.cls == RClass.ok

/-- `isErr()`: `this instanceof Err`. -/
def isErr {T E : Type} (self : Result T E) : Bool :=
  self.cls == RClass.err

/-- The `Result` constructor body, run on a freshly allocated object of
runtime class `cls` with identity `fresh`: it throws
`ResultError.illegalInstantiation()` unless the object is an `Ok` or an
`Err`, and otherwise assigns the two private fields. -/
def construct {T E : Type} (cls : RClass) (success : Option T)
    (error : Option E) (fresh : Nat) : Except ResultError (Result T E) :=
  let self : Result T E :=
    { cls := cls, _success := success, _error := error, id := fresh }
  if !self.isOk && !self.isErr then
    Except.error ResultError.illegalInstantiation
  else
    Except.ok self

/-- `new Ok(success)` (`class Ok<T> extends Result<T, never>`): allocates an
object of class `Ok` with fresh identity `fresh`; its `super` call stores
`success` and `undefined` in the two fields. -/
def newOk {T E : Type} (success : Option T) (fresh : Nat) : Result T E :=
  { cls := RClass.ok, _success := success, _error := Option.none, id := fresh }

/-- `new Err(error)` (`class Err<E> extends Result<never, E>`): allocates an
object of class `Err` with fresh identity `fresh`; its `super` call stores
`undefined` and `error` in the two fields. -/
def newErr {T E : Type} (error : Option E) (fresh : Nat) : Result T E :=
  { cls := RClass.err, _success := Option.none, _error := error, id := fresh }

/-- `ok()`: converts `Result<T, E>` to the external `Option<T>`. -/
def ok {T E : Type} (self : Result T E) : ExtOption (Option T) :=
  if self.isOk then ExtOption.some self._success else ExtOption.none

/-- `err()`: converts `Result<T, E>` to the external `Option<E>`. -/
def err {T E : Type} (self : Result T E) : ExtOption (Option E) :=
  if self.isOk then ExtOption.none else ExtOption.some self._error

/-- `and(res)`: returns `res` itself if `this` is `Ok`, otherwise allocates
`new Err(this._error)` with fresh identity `fresh`. -/
def and {T E U : Type} (self : Result T E) (res : Result U E) (fresh : Nat) :
    Result U E :=
  if self.isOk then res else newErr self._error fresh

/-- `andThen(op)`: invokes `op(this._success)` and returns its result if
`this` is `Ok`, otherwise allocates `new Err(this._error)`. -/
def andThen {T E U : Type} (self : Result T E) (op : Option T → Result U E)
    (fresh : Nat) : Result U E :=
  if self.isOk then op self._success else newErr self._error fresh

/-- `andThen(op)` instrumented with the list of arguments on which `op` is
invoked, in call order: the source calls `op` exactly once, on the success
field, in the `isOk` branch, and not at all in the other branch. -/
def andThenCalls {T E U : Type} (self : Result T E)
    (op : Option T → Result U E) (fresh : Nat) :
    Result U E × List (Option T) :=
  if self.isOk then (op self._success, [self._success])
  else (newErr self._error fresh, [])

/-- `expect(msg)`: returns the success field if `Ok`, otherwise throws
`new ResultError(msg)`. -/
def expect {T E : Type} (self : Result T E) (msg : String) :
    Except ResultError (Option T) :=
  if self.isOk then Except.ok self._success
  else Except.error (ResultError.new msg)

/-- `expectErr(msg)`: returns the error field if `Err`, otherwise throws
`new ResultError(msg)`. -/
def expectErr {T E : Type} (self : Result T E) (msg : String) :
    Except ResultError (Option E) :=
  if self.isErr then Except.ok self._error
  else Except.error (ResultError.new msg)

/-- `map(op)`: allocates `new Ok(op(this._success))` if `Ok`, otherwise
`new Err(this._error)`; the taken branch performs one allocation, with
fresh identity `fresh`. -/
def map {T E U : Type} (self : Result T E) (op : Option T → Option U)
    (fresh : Nat) : Result U E :=
  if self.isOk then newOk (op self._success) fresh
  else newErr self._error fresh

/-- `mapErr(op)`: allocates `new Ok(this._success)` if `Ok`, otherwise
`new Err(op(this._error))`. -/
def mapErr {T E F : Type} (self : Result T E) (op : Option E → Option F)
    (fresh : Nat) : Result T F :=
  if self.isOk then newOk self._success fresh
  else newErr (op self._error) fresh

/-- `or(res)`: allocates `new Ok(this._success)` if `Ok`, otherwise returns
`res` itself. -/
def or {T E F : Type} (self : Result T E) (res : Result T F) (fresh : Nat) :
    Result T F :=
  if self.isOk then newOk self._success fresh else res

/-- `orElse(op)`: allocates `new Ok(this._success)` if `Ok`, otherwise
invokes `op(this._error)` and returns its result. -/
def orElse {T E F : Type} (self : Result T E) (op : Option E → Result T F)
    (fresh : Nat) : Result T F :=
  if self.isOk then newOk self._success fresh else op self._error

/-- `unwrap()`: returns the success field if `Ok`, otherwise throws
`ResultError.illegalCall('unwrap', 'Err')`. -/
def unwrap {T E : Type} (self : Result T E) : Except ResultError (Option T) :=
  if self.isOk then Except.ok self._success
  else Except.error (ResultError.illegalCall "unwrap" "Err")

/-- `unwrapErr()`: returns the error field if `Err`, otherwise throws
`ResultError.illegalCall('unwrapErr', 'Ok')`. -/
def unwrapErr {T E : Type} (self : Result T E) :
    Except ResultError (Option E) :=
  if self.isErr then Except.ok self._error
  else Except.error (ResultError.illegalCall "unwrapErr" "Ok")

/-- `unwrapOr(optb)`: the success field if `Ok`, otherwise `optb`. -/
def unwrapOr {T E : Type} (self : Result T E) (optb : Option T) : Option T :=
  if self.isOk then self._success else optb

/-- `unwrapOrElse(op)`: the success field if `Ok`, otherwise
`op(this._error)`. -/
def unwrapOrElse {T E : Type} (self : Result T E)
    (op : Option E → Option T) : Option T :=
  if self.isOk then self._success else op self._error

/-- Observational equality of two `Result` objects: same runtime class and
the same two stored fields, ignoring reference identity. -/
def obsEq {T E : Type} (a b : Result T E) : Prop :=
  a.cls = b.cls ∧ a._success = b._success ∧ a._error = b._error

end Result

namespace Index

/-- The free factory `ok(success)` from `src/index.ts`:
`new Ok<T>(success)`, allocated with fresh identity `fresh`. -/
def ok {T E : Type} (success : Option T) (fresh : Nat) : Result T E :=
  Result.newOk success fresh

/-- The free factory `err(error)` from `src/index.ts`:
`new Err<E>(error)`, allocated with fresh identity `fresh`. -/
def err {T E : Type} (error : Option E) (fresh : Nat) : Result T E :=
  Result.newErr error fresh

end Index

/-- Going through the checked base-class constructor with runtime class `Ok`
(as the `Ok` subclass constructor does, passing `undefined` for the error
slot) succeeds and yields exactly the object `Result.newOk` describes. -/
theorem construct_ok_eq_newOk {T E : Type} (s : Option T) (i : Nat) :
    Result.construct (T := T) (E := E) RClass.ok s Option.none i
      = Except.ok (Result.newOk s i) := rfl

/-- Going through the checked base-class constructor with runtime class
`Err` succeeds and yields exactly the object `Result.newErr` describes. -/
theorem construct_err_eq_newErr {T E : Type} (e : Option E) (i : Nat) :
    Result.construct (T := T) (E := E) RClass.err Option.none e i
      = Except.ok (Result.newErr e i) := rfl

/-- The instrumented `Result.andThenCalls` refines `Result.andThen`: its
first component is always the value `andThen` returns. -/
theorem andThenCalls_fst {T E U : Type} (self : Result T E)
    (op : Option T → Result U E) (fresh : Nat) :
    (Result.andThenCalls self op fresh).1 = Result.andThen self op fresh := by
  unfold Result.andThenCalls Result.andThen
  by_cases h : self.isOk = true <;> simp [h]

/-- Claim C1: for every value `v`, a `Result` built as `Success` by the
factory (`ok` / `new Ok`) satisfies `unwrap() == v`, and for every error
`e`, a `Result` built as `Failure` by the factory (`err` / `new Err`)
satisfies `unwrapErr() == e`. -/
theorem claim_C1 {T E : Type} (v : Option T) (e : Option E) (i j : Nat) :
    (Index.ok v i : Result T E).unwrap = Except.ok v ∧
    (Index.err e j : Result T E).unwrapErr = Except.ok e :=
  ⟨rfl, rfl⟩

/-- Claim C2: `unwrap()` on a `Failure` throws the `IllegalCall` error
naming `unwrap` and the `Err` (Failure) variant, and `unwrapErr()` on a
`Success` throws the `IllegalCall` error naming `unwrapErr` and the `Ok`
(Success) variant; the message texts spell out both facts. -/
theorem claim_C2 {T E : Type} (v : Option T) (e : Option E) (i j : Nat) :
    (Index.err e i : Result T E).unwrap
        = Except.error (ResultError.illegalCall "unwrap" "Err") ∧
    (ResultError.illegalCall "unwrap" "Err").message
        = "cannot call unwrap on a Result of type Err" ∧
    (Index.ok v j : Result T E).unwrapErr
        = Except.error (ResultError.illegalCall "unwrapErr" "Ok") ∧
    (ResultError.illegalCall "unwrapErr" "Ok").message
        = "cannot call unwrapErr on a Result of type Ok" :=
  ⟨rfl, rfl, rfl, rfl⟩

/-- Claim C3: `andThen(op)` on a `Failure` never invokes `op` (its call
trace is empty, and the result does not depend on `op`) and returns a fresh
`Failure` carrying the same error; on a `Success` built from `v` it invokes
`op` exactly once, with argument `v`, and returns exactly the `Result`
that `op` returns. -/
theorem claim_C3 {T E U : Type} (v : Option T) (e : Option E)
    (op op' : Option T → Result U E) (i j : Nat) :
    Result.andThenCalls (Index.ok v i : Result T E) op j = (op v, [v]) ∧
    (Index.ok v i : Result T E).andThen op j = op v ∧
    Result.andThenCalls (Index.err e i : Result T E) op j
        = (Result.newErr e j, []) ∧
    (Index.err e i : Result T E).andThen op j = Result.newErr e j ∧
    (Index.err e i : Result T E).andThen op j
        = (Index.err e i : Result T E).andThen op' j :=
  ⟨rfl, rfl, rfl, rfl, rfl⟩

/-- Claim C4: `expect(m)` returns the success payload on a `Success` and
throws a `ResultError` carrying exactly the message `m` on a `Failure`
(the illegal-call taxonomy kind, identifiable only through its message and
the shared class name, per the error model); `expectErr(m)` is symmetric. -/
theorem claim_C4 {T E : Type} (v : Option T) (e : Option E) (m : String)
    (i j : Nat) :
    (Index.ok v i : Result T E).expect m = Except.ok v ∧
    (Index.err e j : Result T E).expect m
        = Except.error (ResultError.new m) ∧
    (Index.err e j : Result T E).expectErr m = Except.ok e ∧
    (Index.ok v i : Result T E).expectErr m
        = Except.error (ResultError.new m) ∧
    (ResultError.new m).message = m ∧
    (ResultError.new m).name = "ResultError" :=
  ⟨rfl, rfl, rfl, rfl, rfl, rfl⟩

/-- Claim C5: `and(other)` on a `Success` returns exactly the instance
`other` itself (reference identity included, so no copy is made), while on
a `Failure` built from `e` it returns a newly allocated `Failure` carrying
`e` (fresh identity `j`), independently of `other`. -/
theorem claim_C5 {T E U : Type} (v : Option T) (e : Option E)
    (other other' : Result U E) (i j : Nat) :
    (Index.ok v i : Result T E).and other j = other ∧
    (Index.err e i : Result T E).and other j = Result.newErr e j ∧
    (Result.newErr e j : Result U E).id = j ∧
    (Index.err e i : Result T E).and other j
        = (Index.err e i : Result T E).and other' j :=
  ⟨rfl, rfl, rfl, rfl⟩

/-- Claim C6: `map(x => x)` produces a new instance (fresh identity `j`)
with the same variant and payload fields as the receiver, for both a
`Success` and a `Failure` receiver; when the receiver is a `Failure` and
the allocation is genuinely fresh (`j ≠ i`), the returned object is
distinct from the receiver. -/
theorem claim_C6 {T E : Type} (v : Option T) (e : Option E) (i j : Nat)
    (h : j ≠ i) :
    Result.obsEq ((Index.ok v i : Result T E).map (fun x => x) j)
        (Index.ok v i) ∧
    ((Index.ok v i : Result T E).map (fun x => x) j).id = j ∧
    Result.obsEq ((Index.err e i : Result T E).map (fun x => x) j)
        (Index.err e i) ∧
    ((Index.err e i : Result T E).map (fun x => x) j).id = j ∧
    (Index.err e i : Result T E).map (fun x => x) j
        ≠ (Index.err e i : Result T E) := by
  refine ⟨⟨rfl, rfl, rfl⟩, rfl, ⟨rfl, rfl, rfl⟩, rfl, ?_⟩
  intro hc
  exact h (congrArg Result.id hc)

/-- Concrete instantiation of claim C6 at `v = some 1`, `e = some 2`,
identities `i = 0`, `j = 1`. -/
theorem claim_C6_witness :
    Result.obsEq ((Index.ok (Option.some 1) 0 : Result Nat Nat).map
        (fun x => x) 1) (Index.ok (Option.some 1) 0) ∧
    ((Index.ok (Option.some 1) 0 : Result Nat Nat).map (fun x => x) 1).id
        = 1 ∧
    Result.obsEq ((Index.err (Option.some 2) 0 : Result Nat Nat).map
        (fun x => x) 1) (Index.err (Option.some 2) 0) ∧
    ((Index.err (Option.some 2) 0 : Result Nat Nat).map (fun x => x) 1).id
        = 1 ∧
    (Index.err (Option.some 2) 0 : Result Nat Nat).map (fun x => x) 1
        ≠ (Index.err (Option.some 2) 0 : Result Nat Nat) :=
  claim_C6 (Option.some 1) (Option.some 2) 0 1 (by decide)

/-- Claim C7: running the base `Result` constructor on an object whose
runtime class is the untagged base class (direct `new Result(...)` rather
than construction through the `Ok` or `Err` subclasses) throws
`IllegalInstantiation`, for every pair of constructor arguments. -/
theorem claim_C7 {T E : Type} (s : Option T) (e : Option E) (i : Nat) :
    Result.construct RClass.base s e i
      = Except.error ResultError.illegalInstantiation :=
  rfl

/-- Claim C8: on a `Success` built from `v`, the conversion `ok()` yields a
populated external optional unwrapping to `v` and `err()` yields an empty
one; symmetrically, on a `Failure` built from `e`, `ok()` is empty and
`err()` is populated with `e`. -/
theorem claim_C8 {T E : Type} (v : Option T) (e : Option E) (i j : Nat) :
    (Index.ok v i : Result T E).ok = ExtOption.some v ∧
    ((Index.ok v i : Result T E).ok).unwrap = Option.some v ∧
    (Index.ok v i : Result T E).err = ExtOption.none ∧
    ((Index.ok v i : Result T E).err).isSome = false ∧
    (Index.err e j : Result T E).ok = ExtOption.none ∧
    ((Index.err e j : Result T E).ok).isSome = false ∧
    (Index.err e j : Result T E).err = ExtOption.some e ∧
    ((Index.err e j : Result T E).err).unwrap = Option.some e :=
  ⟨rfl, rfl, rfl, rfl, rfl, rfl, rfl, rfl⟩

/-- Claim C9: both failure kinds are plain `ResultError` values whose
`name` field is the string `"ResultError"`; the type carries no further
discriminant, so two such errors are equal exactly when their messages are,
and the `IllegalCall` kind differs from `IllegalInstantiation` only through
its message text. -/
theorem claim_C9 (m t m1 m2 : String) :
    ResultError.illegalInstantiation.name = "ResultError" ∧
    (ResultError.illegalCall m t).name = "ResultError" ∧
    (ResultError.new m).name = "ResultError" ∧
    (ResultError.new m1 = ResultError.new m2 ↔ m1 = m2) ∧
    (ResultError.illegalCall m t = ResultError.illegalInstantiation ↔
        (ResultError.illegalCall m t).message
          = ResultError.illegalInstantiation.message) := by
  refine ⟨rfl, rfl, rfl, ?_, ?_⟩
  · constructor
    · intro h
      exact congrArg ResultError.message h
    · intro h
      simp [ResultError.new, h]
  · constructor
    · intro h
      exact congrArg ResultError.message h
    · intro h
      simp only [ResultError.illegalCall, ResultError.illegalInstantiation,
        ResultError.new] at h ⊢
      simp [h]

/-- Claim C10: functor composition for both `map` and `mapErr`: mapping
twice agrees, up to the fresh identities of the allocations, with mapping
once by the composite function — same runtime class and same two payload
fields. -/
theorem claim_C10 {T E U V F G : Type} (r : Result T E)
    (f : Option T → Option U) (g : Option U → Option V)
    (p : Option E → Option F) (q : Option F → Option G) (i j k : Nat) :
    Result.obsEq ((r.map f i).map g j) (r.map (fun x => g (f x)) k) ∧
    Result.obsEq ((r.mapErr p i).mapErr q j)
        (r.mapErr (fun x => q (p x)) k) := by
  rcases r with ⟨cls, s, e, n⟩
  cases cls <;>
    simp [Result.map, Result.mapErr, Result.obsEq, Result.newOk,
      Result.newErr, Result.isOk]
